import Mathlib

/-!
# Verification of the `stdlib-ts` Option library

Shallow embedding of the `Option` sum type and its two API surfaces
(the fluent class of `src/option/fluent.ts` and the curried module of
`src/option/pipable.ts`), together with the members the library takes
from its second fluent variant (the `none` static getter and the
Option-level `tap`, found concatenated into `src/.eslintrc.json`) and
the free utilities of `src/fold.ts` and `src/fuction.ts`, and proofs of
the specified laws.

JavaScript features are modelled explicitly:
* `null` / `undefined` versus ordinary values: `JSVal`;
* thrown exceptions: `Except JSError`;
* side effects of callbacks: explicit state passing (`σ → β × σ`);
* the mutable captured accumulator of `foldLeft`: the closure state is
  threaded through each application of the returned function.
-/

namespace StdlibTS

/-- A JavaScript value that may be `null` or `undefined`. `value a` is an
ordinary (non-nullish) value. Strict equality `x !== null` holds exactly
for `undefined` and `value a`; loose equality `x == null` holds exactly
for `null` and `undefined`. -/
inductive JSVal (α : Type) where
  | null
  | undefined
  | value (a : α)
deriving DecidableEq, Repr

/-- Thrown JavaScript errors, as far as this library distinguishes them:
`NoSuchElementException` (a dedicated `Error` subclass declared in
`fluent.ts`, carrying its constructor message) versus any other thrown
error. -/
inductive JSError where
  | noSuchElement (message : String)
  | genericError (message : String)
deriving DecidableEq, Repr

/-- The `Option<A> = None | Some<A>` sum type of `fluent.ts`: the `_tag`
discriminant together with the `value` field that only `Some` has. -/
inductive Opt (α : Type) where
  | none
  | some (value : α)
deriving DecidableEq, Repr

namespace Fluent

/-- Embeds `AbstractOption.isSome`: `fa._tag === 'Some'`. -/
def isSome : Opt α → Bool
  | .none => false
  | .some _ => true

/-- Embeds `AbstractOption.isNone`: `fa._tag === 'None'`. -/
def isNone : Opt α → Bool
  | .none => true
  | .some _ => false

/-- Embeds `AbstractOption.apply`: `x !== null ? new Some(x) : new None()`.
Strict inequality with `null` is false only for `null` itself, so
`undefined` is wrapped in `Some`. -/
def apply : JSVal α → Opt (JSVal α)
  | .null => .none
  | .undefined => .some .undefined
  | .value a => .some (.value a)

/-- Embeds `AbstractOption.fromNullable`: `a == null ? new None() : new Some(a)`.
Loose equality with `null` is true for both `null` and `undefined`. -/
def fromNullable : JSVal α → Opt α
  | .null => .none
  | .undefined => .none
  | .value a => .some a

/-- Embeds `AbstractOption.fromPredicate`: `(a) => predicate(a) ? new Some(a) : new None()`. -/
def fromPredicate (predicate : α → Bool) : α → Opt α :=
  fun a => if predicate a then .some a else .none

/-- Embeds `AbstractOption.empty`: `new None()`. -/
def empty : Opt α := .none

/-- Embeds `AbstractOption.when`: evaluates the lazy argument only when `cond` is
true. The thunk is state-threaded to make evaluation observable. -/
def whenEff (cond : Bool) (a : σ → α × σ) (s : σ) : Opt α × σ :=
  if cond then
    let (v, s') := a s
    (.some v, s')
  else (.none, s)

/-- Embeds `AbstractOption.unless`: `when` with the condition negated. -/
def unlessEff (cond : Bool) (a : σ → α × σ) (s : σ) : Opt α × σ :=
  if !cond then
    let (v, s') := a s
    (.some v, s')
  else (.none, s)

/-- Embeds `AbstractOption.tryCatch` on a pure thunk whose outcome is a normal
return (`ok`) or a thrown error (`error`): `try { return new Some(f()) }
catch { return new None() }`. -/
def tryCatch (f : Unit → Except JSError α) : Opt α :=
  match f () with
  | .ok a => .some a
  | .error _ => .none

/-- Embeds `AbstractOption.tryCatch` with the thunk's side effects made explicit:
the thunk maps a state to an outcome and a new state; the `catch` branch
keeps the effects and discards the error. -/
def tryCatchEff (f : σ → Except JSError α × σ) (s : σ) : Opt α × σ :=
  match f s with
  | (.ok a, s') => (.some a, s')
  | (.error _, s') => (.none, s')

/-- Embeds the abstract `get`: `None.get` throws
`new NoSuchElementException('None.get')`; `Some.get` returns `this.value`. -/
def get : Opt α → Except JSError α
  | .none => .error (.noSuchElement "None.get")
  | .some v => .ok v

/-- Embeds `AbstractOption.isEmpty`: `this instanceof None && this.isNone()`. -/
def isEmpty : Opt α → Bool
  | .none => true
  | .some _ => false

/-- Embeds `AbstractOption.isDefined`: `this instanceof Some && !this.isEmpty()`. -/
def isDefined : Opt α → Bool
  | .none => false
  | .some _ => true

/-- Embeds `AbstractOption.knownSize`:
`(this instanceof Some || this instanceof None) && this.isEmpty() ? 0 : 1`;
the first conjunct is true of every option. -/
def knownSize (o : Opt α) : Nat :=
  if isEmpty o then 0 else 1

/-- Embeds `AbstractOption.getOrElse`: `this.isNone() ? onNone() : this.get()`.
The `onNone` thunk is modelled lazily as `Unit → α`. -/
def getOrElse (o : Opt α) (onNone : Unit → α) : α :=
  match o with
  | .none => onNone ()
  | .some v => v

/-- Embeds `AbstractOption.getOrElseInv`: `this.getOrElse(onNone)`. -/
def getOrElseInv (o : Opt α) (onNone : Unit → α) : α :=
  getOrElse o onNone

/-- Embeds `AbstractOption.orNull`: `this.getOrElse(() => null)`, at the union
type `A | null` modelled by `JSVal`. -/
def orNull : Opt α → JSVal α
  | .none => .null
  | .some v => .value v

/-- Embeds `AbstractOption.map`: `this.isNone() ? new None() : new Some(f(this.get()))`. -/
def map (o : Opt α) (f : α → β) : Opt β :=
  match o with
  | .none => .none
  | .some v => .some (f v)

/-- Embeds `AbstractOption.mapNullable`:
`this.isNone() ? new None() : AbstractOption.fromNullable(f(this.get()))`. -/
def mapNullable (o : Opt α) (f : α → JSVal β) : Opt β :=
  match o with
  | .none => .none
  | .some v => fromNullable (f v)

/-- Embeds `AbstractOption.fold`: `this.isEmpty() ? onNone() : onSome(this.get())`. -/
def fold (o : Opt α) (onNone : Unit → β) (onSome : α → β) : β :=
  match o with
  | .none => onNone ()
  | .some v => onSome v

/-- Embeds `AbstractOption.ap`:
`that.isNone() ? new None() : this.isNone() ? new None() : new Some(that.get()(this.get()))`. -/
def ap (o : Opt α) (that : Opt (α → β)) : Opt β :=
  match that with
  | .none => .none
  | .some f =>
    match o with
    | .none => .none
    | .some v => .some (f v)

/-- Embeds `AbstractOption.chain`: `this.isNone() ? new None() : f(this.get())`. -/
def chain (o : Opt α) (f : α → Opt β) : Opt β :=
  match o with
  | .none => .none
  | .some v => f v

/-- Embeds `AbstractOption.flatMap`: `this.isEmpty() ? new None() : f(this.get())`. -/
def flatMap (o : Opt α) (f : α → Opt β) : Opt β :=
  match o with
  | .none => .none
  | .some v => f v

/-- Embeds `AbstractOption.flatten`: `this.chain(F.identity)`. -/
def flatten (o : Opt (Opt α)) : Opt α :=
  chain o id

/-- Embeds `AbstractOption.filter`:
`this.isEmpty() || predicate(this.get()) ? this : new None()`. -/
def filter (o : Opt α) (predicate : α → Bool) : Opt α :=
  match o with
  | .none => o
  | .some v => if predicate v then o else .none

/-- Embeds `AbstractOption.filterNot`:
`this.isEmpty() || !predicate(this.get()) ? this : new None()`. -/
def filterNot (o : Opt α) (predicate : α → Bool) : Opt α :=
  match o with
  | .none => o
  | .some v => if !predicate v then o else .none

/-- Embeds `AbstractOption.nonEmpty`: `this.isDefined()`. -/
def nonEmpty (o : Opt α) : Bool :=
  isDefined o

/-- Embeds `AbstractOption.contains`: `!this.isEmpty() && this.get() === elem`,
with `===` on the wrapped value modelled by decidable equality. -/
def contains [DecidableEq α] (o : Opt α) (elem : α) : Bool :=
  match o with
  | .none => false
  | .some v => v = elem

/-- Embeds `AbstractOption.exists`: `this.isNone() ? false : predicate(this.get())`. -/
def existsM (o : Opt α) (predicate : α → Bool) : Bool :=
  match o with
  | .none => false
  | .some v => predicate v

/-- Embeds `AbstractOption.forall`: `this.isEmpty() || predicate(this.get())`. -/
def forallM (o : Opt α) (predicate : α → Bool) : Bool :=
  match o with
  | .none => true
  | .some v => predicate v

/-- Embeds `AbstractOption.foreach`: `if (!this.isEmpty()) { f(this.get()) }`.
The procedure's side effect is modelled by state passing; its return
value (`U`) is discarded, as in the source, and the method returns the
final state. -/
def foreach (o : Opt α) (f : α → σ → β × σ) (s : σ) : σ :=
  match o with
  | .none => s
  | .some v => (f v s).2

/-- Embeds `AbstractOption.orElse`:
`if (this.isEmpty()) { return alternative() } return this`. -/
def orElse (o : Opt α) (alternative : Unit → Opt α) : Opt α :=
  match o with
  | .none => alternative ()
  | .some _ => o

/-- Embeds `AbstractOption.zip`:
`this.isEmpty() || that.isEmpty() ? new None() : new Some([this.get(), that.get()])`. -/
def zip (o : Opt α) (that : Opt β) : Opt (α × β) :=
  match o with
  | .none => .none
  | .some a =>
    match that with
    | .none => .none
    | .some b => .some (a, b)

/-- Embeds `AbstractOption.unzip`: a pair of `None`s on empty, otherwise splits
the pair produced by `asPair`. -/
def unzip (o : Opt α) (asPair : α → β × γ) : Opt β × Opt γ :=
  match o with
  | .none => (.none, .none)
  | .some v => (.some (asPair v).1, .some (asPair v).2)

/-- Embeds `AbstractOption.toList`: `this.isEmpty() ? new Array() : [this.get()]`. -/
def toList : Opt α → List α
  | .none => []
  | .some v => [v]

/-- Embeds `AbstractOption.toNullable`: `this.isNone() ? null : this.get()`. -/
def toNullable : Opt α → JSVal α
  | .none => .null
  | .some v => .value v

/-- Embeds `AbstractOption.toUndefined`: `this.isNone() ? undefined : this.get()`. -/
def toUndefined : Opt α → JSVal α
  | .none => .undefined
  | .some v => .value v

end Fluent

namespace Pipe

/-- Embeds the fluent module's `_.none` static that `pipable.ts`
returns: the second fluent variant of the source (concatenated into
`src/.eslintrc.json`, line 177) declares
`static get none(): None { return None.getInstance() }`, where
`None.getInstance()` lazily creates and thereafter returns the
process-wide frozen `None` singleton. That object carries only its
`_tag`, so in value semantics it is the `None` variant. -/
def noneValue : Opt α := .none

/-- Embeds the pipeable `isSome`: `fa._tag === 'Some'`. -/
def isSome : Opt α → Bool
  | .none => false
  | .some _ => true

/-- Embeds the pipeable `isNone`: `fa._tag === 'None'`. -/
def isNone : Opt α → Bool
  | .none => true
  | .some _ => false

/-- Embeds the pipeable `exists`:
`(predicate) => (ma) => isNone(ma) ? false : predicate(ma.value)`. -/
def existsP (predicate : α → Bool) (ma : Opt α) : Bool :=
  match ma with
  | .none => false
  | .some v => predicate v

/-- Embeds the pipeable `filter`:
`(predicate) => (fa) => isNone(fa) ? _.none : predicate(fa.value) ? fa : _.none`. -/
def filter (predicate : α → Bool) (fa : Opt α) : Opt α :=
  match fa with
  | .none => noneValue
  | .some v => if predicate v then fa else noneValue

/-- Embeds the pipeable `filterNot`:
`(predicate) => (fa) => isSome(fa) && !predicate(fa.value) ? fa : _.none`. -/
def filterNot (predicate : α → Bool) (fa : Opt α) : Opt α :=
  match fa with
  | .none => noneValue
  | .some v => if !predicate v then fa else noneValue

/-- Embeds the pipeable `flatMap`:
`(f) => (ma) => isNone(ma) ? _.none : f(ma.value)`. -/
def flatMap (f : α → Opt β) (ma : Opt α) : Opt β :=
  match ma with
  | .none => noneValue
  | .some v => f v

/-- Embeds the pipeable `compact`: `flatMap(F.identity)`. -/
def compact (fa : Opt (Opt α)) : Opt α :=
  flatMap id fa

/-- Embeds the pipeable `flatten`: `compact`. -/
def flatten (mma : Opt (Opt α)) : Opt α :=
  compact mma

/-- Embeds the pipeable `foldW`:
`(onNone, onSome) => (ma) => isNone(ma) ? onNone() : onSome(ma.value)`. -/
def foldW (onNone : Unit → β) (onSome : α → β) (ma : Opt α) : β :=
  match ma with
  | .none => onNone ()
  | .some v => onSome v

/-- Embeds the pipeable `fold`: `foldW` at the homogeneous type. -/
def fold (onNone : Unit → β) (onSome : α → β) (ma : Opt α) : β :=
  foldW onNone onSome ma

/-- Embeds the pipeable `forall`:
`(predicate) => (ma) => isNone(ma) || predicate(ma.value)`. -/
def forallP (predicate : α → Bool) (ma : Opt α) : Bool :=
  match ma with
  | .none => true
  | .some v => predicate v

/-- Embeds the pipeable `forEach`: `if (!isNone(fa)) { f(fa.value) }`,
with the callback's side effect modelled by state passing and its return
value discarded. -/
def forEach (f : α → σ → β × σ) (fa : Opt α) (s : σ) : σ :=
  match fa with
  | .none => s
  | .some v => (f v s).2

/-- Embeds the pipeable `getOrElseW`:
`(onNone) => (ma) => isNone(ma) ? onNone() : ma.value`. -/
def getOrElseW (onNone : Unit → α) (ma : Opt α) : α :=
  match ma with
  | .none => onNone ()
  | .some v => v

/-- Embeds the pipeable `getOrElse`: `getOrElseW` at the homogeneous type. -/
def getOrElse (onNone : Unit → α) (ma : Opt α) : α :=
  getOrElseW onNone ma

end Pipe

/-- Embeds `foldLeft` of `fold.ts` faithfully, including the mutable
capture: the returned `apply` closure reads and REASSIGNS the captured
`acc` (`for (const el of iterable) acc = op(acc, el); return acc`). One
invocation maps the captured accumulator `acc` to the pair
(returned value, captured accumulator after the call). -/
def foldLeftApply (op : A → Elm → A) (xs : List Elm) (acc : A) : A × A :=
  match xs with
  | [] => (acc, acc)
  | el :: rest => foldLeftApply op rest (op acc el)

/-- Two successive invocations of the same closure returned by
`foldLeft(acc0)(op)`, first on `xs` then on `ys`: the captured
accumulator left by the first call is the one the second call starts
from. Returns the two returned values. -/
def foldLeftTwice (op : A → Elm → A) (xs ys : List Elm) (acc0 : A) :
    A × A :=
  let (r1, s1) := foldLeftApply op xs acc0
  let (r2, _) := foldLeftApply op ys s1
  (r1, r2)

namespace Method

/-!
Field semantics of the fluent instance methods, for the immutability
claim: a receiver is its observable fields (`_tag`, and `value` on
`Some`), i.e. an `Opt` value, and a method call maps the receiver's
fields to the pair (return value, receiver's fields after the call).
Both fields are declared `readonly` and no method body assigns to them,
so each branch below pairs its result with the fields the branch read.
-/

/-- Field semantics of `isEmpty`. -/
def isEmptyM : Opt α → Bool × Opt α
  | .none => (true, .none)
  | .some v => (false, .some v)

/-- Field semantics of `isDefined`. -/
def isDefinedM : Opt α → Bool × Opt α
  | .none => (false, .none)
  | .some v => (true, .some v)

/-- Field semantics of `isNone`. -/
def isNoneM : Opt α → Bool × Opt α
  | .none => (true, .none)
  | .some v => (false, .some v)

/-- Field semantics of `isSome`. -/
def isSomeM : Opt α → Bool × Opt α
  | .none => (false, .none)
  | .some v => (true, .some v)

/-- Field semantics of `knownSize`. -/
def knownSizeM : Opt α → Nat × Opt α
  | .none => (0, .none)
  | .some v => (1, .some v)

/-- Field semantics of `get`. -/
def getM : Opt α → Except JSError α × Opt α
  | .none => (.error (.noSuchElement "None.get"), .none)
  | .some v => (.ok v, .some v)

/-- Field semantics of `getOrElse`. -/
def getOrElseM (o : Opt α) (onNone : Unit → α) : α × Opt α :=
  match o with
  | .none => (onNone (), .none)
  | .some v => (v, .some v)

/-- Field semantics of `orNull`. -/
def orNullM : Opt α → JSVal α × Opt α
  | .none => (.null, .none)
  | .some v => (.value v, .some v)

/-- Field semantics of `map`. -/
def mapM (o : Opt α) (f : α → β) : Opt β × Opt α :=
  match o with
  | .none => (.none, .none)
  | .some v => (.some (f v), .some v)

/-- Field semantics of `mapNullable`. -/
def mapNullableM (o : Opt α) (f : α → JSVal β) : Opt β × Opt α :=
  match o with
  | .none => (.none, .none)
  | .some v => (Fluent.fromNullable (f v), .some v)

/-- Field semantics of `fold`. -/
def foldM (o : Opt α) (onNone : Unit → β) (onSome : α → β) : β × Opt α :=
  match o with
  | .none => (onNone (), .none)
  | .some v => (onSome v, .some v)

/-- Field semantics of `ap` (the receiver is `this`; `that` is an
argument and its fields are likewise `readonly`). -/
def apM (o : Opt α) (that : Opt (α → β)) : Opt β × Opt α :=
  match that with
  | .none => (.none, o)
  | .some f =>
    match o with
    | .none => (.none, .none)
    | .some v => (.some (f v), .some v)

/-- Field semantics of `chain`. -/
def chainM (o : Opt α) (f : α → Opt β) : Opt β × Opt α :=
  match o with
  | .none => (.none, .none)
  | .some v => (f v, .some v)

/-- Field semantics of `flatMap`. -/
def flatMapM (o : Opt α) (f : α → Opt β) : Opt β × Opt α :=
  match o with
  | .none => (.none, .none)
  | .some v => (f v, .some v)

/-- Field semantics of `flatten`. -/
def flattenM (o : Opt (Opt α)) : Opt α × Opt (Opt α) :=
  chainM o id

/-- Field semantics of `filter` (the `this`-returning branches return
the receiver's fields as the result). -/
def filterM (o : Opt α) (predicate : α → Bool) : Opt α × Opt α :=
  match o with
  | .none => (.none, .none)
  | .some v => (if predicate v then .some v else .none, .some v)

/-- Field semantics of `filterNot`. -/
def filterNotM (o : Opt α) (predicate : α → Bool) : Opt α × Opt α :=
  match o with
  | .none => (.none, .none)
  | .some v => (if !predicate v then .some v else .none, .some v)

/-- Field semantics of `nonEmpty`. -/
def nonEmptyM : Opt α → Bool × Opt α
  | .none => (false, .none)
  | .some v => (true, .some v)

/-- Field semantics of `contains`. -/
def containsM [DecidableEq α] (o : Opt α) (elem : α) : Bool × Opt α :=
  match o with
  | .none => (false, .none)
  | .some v => (decide (v = elem), .some v)

/-- Field semantics of `exists`. -/
def existsMM (o : Opt α) (predicate : α → Bool) : Bool × Opt α :=
  match o with
  | .none => (false, .none)
  | .some v => (predicate v, .some v)

/-- Field semantics of `forall`. -/
def forallMM (o : Opt α) (predicate : α → Bool) : Bool × Opt α :=
  match o with
  | .none => (true, .none)
  | .some v => (predicate v, .some v)

/-- Field semantics of `foreach`, with the callback state-threaded. -/
def foreachM (o : Opt α) (f : α → σ → β × σ) (s : σ) : σ × Opt α :=
  match o with
  | .none => (s, .none)
  | .some v => ((f v s).2, .some v)

/-- Field semantics of `orElse`. -/
def orElseM (o : Opt α) (alternative : Unit → Opt α) : Opt α × Opt α :=
  match o with
  | .none => (alternative (), .none)
  | .some v => (.some v, .some v)

/-- Field semantics of `zip`. -/
def zipM (o : Opt α) (that : Opt β) : Opt (α × β) × Opt α :=
  match o with
  | .none => (.none, .none)
  | .some a =>
    match that with
    | .none => (.none, .some a)
    | .some b => (.some (a, b), .some a)

/-- Field semantics of `unzip`. -/
def unzipM (o : Opt α) (asPair : α → β × γ) : (Opt β × Opt γ) × Opt α :=
  match o with
  | .none => ((.none, .none), .none)
  | .some v => ((.some (asPair v).1, .some (asPair v).2), .some v)

/-- Field semantics of `toList`. -/
def toListM : Opt α → List α × Opt α
  | .none => ([], .none)
  | .some v => ([v], .some v)

/-- Field semantics of `toNullable`. -/
def toNullableM : Opt α → JSVal α × Opt α
  | .none => (.null, .none)
  | .some v => (.value v, .some v)

/-- Field semantics of `toUndefined`. -/
def toUndefinedM : Opt α → JSVal α × Opt α
  | .none => (.undefined, .none)
  | .some v => (.value v, .some v)

end Method

/-- Embeds the fluent `tap` of the second fluent variant of the source
(concatenated into `src/.eslintrc.json`, lines 830-835):
`if (this.isSome()) { f(this.value) } return this`. The callback's side
effect is state-threaded and its return value is discarded; the method
returns `this` unchanged in both branches. -/
def tapOpt (o : Opt α) (f : α → σ → β × σ) (s : σ) : Opt α × σ :=
  match o with
  | .none => (o, s)
  | .some v => (o, (f v s).2)

/-- C1: the fluent and pipeable surfaces are behaviorally identical on
every operation implemented on both (filter, filterNot, flatMap,
flatten, exists, forall, fold, getOrElse, forEach): for every option,
callback and effect state, the fluent method and the curried free
function return the same result; in particular the pipeable `filter p`
applied to `None` returns `None`, exactly as the fluent
`None.filter(p)` does. -/
theorem C1_fluent_pipe_agree {α β γ σ : Type} (o : Opt α) (oo : Opt (Opt α))
    (p : α → Bool) (f : α → Opt β) (onNone : Unit → γ) (onSome : α → γ)
    (d : Unit → α) (g : α → σ → β × σ) (s : σ) :
    Fluent.filter o p = Pipe.filter p o ∧
    Fluent.filterNot o p = Pipe.filterNot p o ∧
    Fluent.flatMap o f = Pipe.flatMap f o ∧
    Fluent.flatten oo = Pipe.flatten oo ∧
    Fluent.existsM o p = Pipe.existsP p o ∧
    Fluent.forallM o p = Pipe.forallP p o ∧
    Fluent.fold o onNone onSome = Pipe.fold onNone onSome o ∧
    Fluent.getOrElse o d = Pipe.getOrElse d o ∧
    Fluent.foreach o g s = Pipe.forEach g o s ∧
    Pipe.filter p (Opt.none : Opt α) = Opt.none ∧
    Fluent.filter (Opt.none : Opt α) p = Opt.none := by
  cases o <;> cases oo <;>
    simp [Fluent.filter, Pipe.filter, Fluent.filterNot, Pipe.filterNot,
      Fluent.flatMap, Pipe.flatMap, Fluent.flatten, Pipe.flatten,
      Pipe.compact, Fluent.chain, Fluent.existsM, Pipe.existsP,
      Fluent.forallM, Pipe.forallP, Fluent.fold, Pipe.fold, Pipe.foldW,
      Fluent.getOrElse, Pipe.getOrElse, Pipe.getOrElseW, Fluent.foreach,
      Pipe.forEach, Pipe.noneValue]

/-- C2 counterexample: `getOrElse` is an operation of §4.4 other than
construction, yet on `none()` its result depends on the supplied thunk
(the thunk IS evaluated), refuting "op applied to none() with f equals
op applied to none() with g" at f = const 1, g = const 2. -/
theorem C2_getOrElse_evaluates_thunk :
    Fluent.getOrElse (Opt.none : Opt Nat) (fun _ => 1) ≠
      Fluent.getOrElse (Opt.none : Opt Nat) (fun _ => 2) := by
  decide

/-- C2 (amended): on `none()`, every §4.3/§4.4 operation never evaluates
its value-consuming callback — the result is the designated
empty/default, independent of that callback — while the operations that
take a none-branch thunk (`getOrElse`, `orElse`, and `fold`'s `onNone`)
evaluate exactly that thunk and return its result. -/
theorem C2_short_circuit_on_none {α β γ σ δ : Type}
    (f : α → β) (fnul : α → JSVal β) (fo : α → Opt β) (p : α → Bool)
    (that : Opt (α → β)) (zb : Opt β) (pr : α → β × γ)
    (g : α → σ → δ × σ) (s : σ) (onNone : Unit → γ) (onSome : α → γ)
    (d : Unit → α) (alt : Unit → Opt α) :
    Fluent.map (Opt.none : Opt α) f = Opt.none ∧
    Fluent.mapNullable (Opt.none : Opt α) fnul = Opt.none ∧
    Fluent.flatMap (Opt.none : Opt α) fo = Opt.none ∧
    Fluent.chain (Opt.none : Opt α) fo = Opt.none ∧
    Fluent.flatten (Opt.none : Opt (Opt α)) = Opt.none ∧
    Fluent.filter (Opt.none : Opt α) p = Opt.none ∧
    Fluent.filterNot (Opt.none : Opt α) p = Opt.none ∧
    Fluent.ap (Opt.none : Opt α) that = Opt.none ∧
    Fluent.zip (Opt.none : Opt α) zb = Opt.none ∧
    Fluent.unzip (Opt.none : Opt α) pr = (Opt.none, Opt.none) ∧
    Fluent.foreach (Opt.none : Opt α) g s = s ∧
    tapOpt (Opt.none : Opt α) g s = (Opt.none, s) ∧
    Fluent.toList (Opt.none : Opt α) = [] ∧
    Fluent.orNull (Opt.none : Opt α) = JSVal.null ∧
    Fluent.toNullable (Opt.none : Opt α) = JSVal.null ∧
    Fluent.toUndefined (Opt.none : Opt α) = JSVal.undefined ∧
    Fluent.fold (Opt.none : Opt α) onNone onSome = onNone () ∧
    Fluent.getOrElse (Opt.none : Opt α) d = d () ∧
    Fluent.orElse (Opt.none : Opt α) alt = alt () := by
  cases that <;>
    simp [Fluent.map, Fluent.mapNullable, Fluent.flatMap, Fluent.chain,
      Fluent.flatten, Fluent.filter, Fluent.filterNot, Fluent.ap,
      Fluent.zip, Fluent.unzip, Fluent.foreach, tapOpt, Fluent.toList,
      Fluent.orNull, Fluent.toNullable, Fluent.toUndefined, Fluent.fold,
      Fluent.getOrElse, Fluent.orElse]

/-- C3: `get()` on `some(v)` returns exactly `v`; `get()` on `none()`
throws the no-such-element error, a dedicated error kind distinct from
a generic `Error`, whose message `"None.get"` names the failing call;
and among option receivers this error arises exactly on `None`. -/
theorem C3_get_behavior {α : Type} (v : α) (m m' : String) :
    Fluent.get (Opt.some v) = Except.ok v ∧
    Fluent.get (Opt.none : Opt α) =
      Except.error (JSError.noSuchElement "None.get") ∧
    (∀ o : Opt α,
      (∃ s, Fluent.get o = Except.error (JSError.noSuchElement s)) ↔
        o = Opt.none) ∧
    JSError.noSuchElement m ≠ JSError.genericError m' := by
  refine ⟨rfl, rfl, ?_, by simp⟩
  intro o
  cases o <;> simp [Fluent.get]

/-- C4: evaluation of `foldLeft` at the failing input. The closure
returned by `foldLeft(0)(Nat.add)` is applied twice to the same list
`[1]`: because `apply` reassigns the captured accumulator, the first
application returns 1 but the second returns 2, not the same result. -/
theorem C4_foldLeft_not_reusable :
    foldLeftTwice Nat.add [1] [1] 0 = (1, 2) ∧ (1 : Nat) ≠ 2 := by
  decide

/-- C5: `tryCatch(t)` evaluates `t()` (its side effects on the state
happen exactly once, before the result is built); a normal return `a`
yields `some a`; a thrown error yields `none()` with the error
discarded, whatever it was. -/
theorem C5_tryCatch_behavior {α σ : Type}
    (t : Unit → Except JSError α) (te : σ → Except JSError α × σ) (s : σ) :
    (∀ a, t () = Except.ok a → Fluent.tryCatch t = Opt.some a) ∧
    (∀ e, t () = Except.error e → Fluent.tryCatch t = Opt.none) ∧
    (∀ a s', te s = (Except.ok a, s') →
      Fluent.tryCatchEff te s = (Opt.some a, s')) ∧
    (∀ e s', te s = (Except.error e, s') →
      Fluent.tryCatchEff te s = (Opt.none, s')) := by
  refine ⟨?_, ?_, ?_, ?_⟩
  · intro a h; simp [Fluent.tryCatch, h]
  · intro e h; simp [Fluent.tryCatch, h]
  · intro a s' h; simp [Fluent.tryCatchEff, h]
  · intro e s' h; simp [Fluent.tryCatchEff, h]

/-- C5 witness: concrete thunks. The state-threaded thunk increments a
counter, showing it is evaluated (counter 0 becomes 1); the throwing
thunk's error is discarded. -/
theorem C5_tryCatch_witness :
    Fluent.tryCatch (fun _ => (Except.ok 42 : Except JSError Nat)) =
      Opt.some 42 ∧
    Fluent.tryCatch
        (fun _ => (Except.error (JSError.genericError "boom") :
          Except JSError Nat)) = Opt.none ∧
    Fluent.tryCatchEff
        (fun n => ((Except.ok n : Except JSError Nat), n + 1)) 0 =
      (Opt.some 0, 1) :=
  ⟨(C5_tryCatch_behavior (fun _ => Except.ok 42)
      (fun n => ((Except.ok n : Except JSError Nat), n + 1)) 0).1 42 rfl,
   (C5_tryCatch_behavior
      (fun _ => (Except.error (JSError.genericError "boom") :
        Except JSError Nat))
      (fun n => ((Except.ok n : Except JSError Nat), n + 1)) 0).2.1
      (JSError.genericError "boom") rfl,
   (C5_tryCatch_behavior (fun _ => (Except.ok 42 : Except JSError Nat))
      (fun n => ((Except.ok n : Except JSError Nat), n + 1)) 0).2.2.1
      0 1 rfl⟩

/-- C6: round trip — `fromNullable(x).toNullable()` equals `x` when `x`
is non-null (a proper value, neither `null` nor `undefined`), else
`null`. -/
theorem C6_fromNullable_toNullable_roundtrip {α : Type} (a : α) :
    Fluent.toNullable (Fluent.fromNullable (JSVal.value a)) =
      JSVal.value a ∧
    Fluent.toNullable (Fluent.fromNullable (JSVal.null : JSVal α)) =
      JSVal.null ∧
    Fluent.toNullable (Fluent.fromNullable (JSVal.undefined : JSVal α)) =
      JSVal.null := by
  exact ⟨rfl, rfl, rfl⟩

/-- C7: monad left identity — `some(a).flatMap(f)` equals `f(a)`. -/
theorem C7_flatMap_left_identity {α β : Type} (a : α) (f : α → Opt β) :
    Fluent.flatMap (Opt.some a) f = f a := rfl

/-- C8: `forall(p)` is true on `None` for every predicate (vacuous
truth, the predicate never evaluated), equals `p v` on `some v`, and is
false exactly when the option is a `Some` whose value fails `p` — on
both the fluent and the pipeable surface. -/
theorem C8_forall_behavior {α : Type} (p : α → Bool) (v : α) (o : Opt α) :
    Fluent.forallM (Opt.none : Opt α) p = true ∧
    Pipe.forallP p (Opt.none : Opt α) = true ∧
    Fluent.forallM (Opt.some v) p = p v ∧
    Pipe.forallP p (Opt.some v) = p v ∧
    (Fluent.forallM o p = false ↔
      ∃ w, o = Opt.some w ∧ p w = false) := by
  refine ⟨rfl, rfl, rfl, rfl, ?_⟩
  cases o <;> simp [Fluent.forallM]

/-- C9: no operation of §4 mutates an existing option — under the field
semantics, after any instance method call the receiver is still the
same variant wrapping the same value. -/
theorem C9_methods_preserve_receiver {α β γ σ : Type} [DecidableEq α]
    (o : Opt α) (oo : Opt (Opt α)) (f : α → β) (fnul : α → JSVal β)
    (onNone : Unit → β) (onSome : α → β) (fo : α → Opt β) (p : α → Bool)
    (that : Opt (α → β)) (zb : Opt β) (pr : α → β × γ)
    (g : α → σ → β × σ) (s : σ) (d : Unit → α) (alt : Unit → Opt α)
    (elem : α) :
    (Method.isEmptyM o).2 = o ∧
    (Method.isDefinedM o).2 = o ∧
    (Method.isNoneM o).2 = o ∧
    (Method.isSomeM o).2 = o ∧
    (Method.knownSizeM o).2 = o ∧
    (Method.getM o).2 = o ∧
    (Method.getOrElseM o d).2 = o ∧
    (Method.orNullM o).2 = o ∧
    (Method.mapM o f).2 = o ∧
    (Method.mapNullableM o fnul).2 = o ∧
    (Method.foldM o onNone onSome).2 = o ∧
    (Method.apM o that).2 = o ∧
    (Method.chainM o fo).2 = o ∧
    (Method.flatMapM o fo).2 = o ∧
    (Method.flattenM oo).2 = oo ∧
    (Method.filterM o p).2 = o ∧
    (Method.filterNotM o p).2 = o ∧
    (Method.nonEmptyM o).2 = o ∧
    (Method.containsM o elem).2 = o ∧
    (Method.existsMM o p).2 = o ∧
    (Method.forallMM o p).2 = o ∧
    (Method.foreachM o g s).2 = o ∧
    (Method.orElseM o alt).2 = o ∧
    (Method.zipM o zb).2 = o ∧
    (Method.unzipM o pr).2 = o ∧
    (Method.toListM o).2 = o ∧
    (Method.toNullableM o).2 = o ∧
    (Method.toUndefinedM o).2 = o := by
  cases o <;> cases oo <;> cases that <;> cases zb <;>
    simp [Method.isEmptyM, Method.isDefinedM, Method.isNoneM,
      Method.isSomeM, Method.knownSizeM, Method.getM, Method.getOrElseM,
      Method.orNullM, Method.mapM, Method.mapNullableM, Method.foldM,
      Method.apM, Method.chainM, Method.flatMapM, Method.flattenM,
      Method.filterM, Method.filterNotM, Method.nonEmptyM,
      Method.containsM, Method.existsMM, Method.forallMM,
      Method.foreachM, Method.orElseM, Method.zipM, Method.unzipM,
      Method.toListM, Method.toNullableM, Method.toUndefinedM]

/-- C10: the constructor `apply` classifies only `null` as empty —
`apply(x)` is `None` iff `x` is strictly equal to `null`; in particular
`apply(undefined)` is `Some` wrapping `undefined`, unlike
`fromNullable(undefined)`, which is `None`. -/
theorem C10_apply_null_only {α : Type} (x : JSVal α) :
    (Fluent.apply x = Opt.none ↔ x = JSVal.null) ∧
    Fluent.apply (JSVal.undefined : JSVal α) = Opt.some JSVal.undefined ∧
    Fluent.fromNullable (JSVal.undefined : JSVal α) = Opt.none := by
  refine ⟨?_, rfl, rfl⟩
  cases x <;> simp [Fluent.apply]

end StdlibTS
